import Mathlib

/-!
Verification of the `static_initializer` crate: a shallow embedding of the
`static_init!` procedural macro (`static-initializer-macros/src/lib.rs`) and of
the code it expands to, together with proofs of the specified properties.

The embedding covers:
* the section scheduler (`cfg_windows`/`cfg_apple`/`cfg_unix`/`cfg_unsupported`,
  `get_initializer_attributes`, `get_deinitializer_attributes`) with the
  priority rendered by `pad5`, the embedding of `.format` with width 5 and a
  zero fill (`\x7b:05\x7d`) on a `u16` value;
* the expansion performed by `static_init` (handle struct, hidden module name
  via `get_module_ident`, the two capability assertions, the fixed priority
  `65535`) and the build outcome when the target language processes the
  expansion (`cfg` resolution, assertion typechecking);
* the lifecycle of the generated storage cell (`MaybeUninit` with `write`,
  `assume_init_drop`, `assume_init_ref`), with the undefined behaviour of the
  `assume_init_*` operations outside their precondition modelled as `none`;
* the token-level grammar accepted by `impl Parse for StaticWithInitializer`.
-/

namespace StaticInitializer

/-! ### Decimal rendering of the priority -/

/-- One decimal digit `d` (`0 ≤ d ≤ 9`) as its ASCII character. -/
def digitChar (d : Nat) : Char := Char.ofNat (48 + d)

/-- Embedding of `format` with the width-5 zero-fill spec (`\x7b:05\x7d`)
applied to the `u16` value `priority`: the base-10 digits of the number,
left-filled with `0` to width 5.  A `u16` is at most `65535`, hence at most
five digits, so the output is exactly the five base-10 digits of the value,
written here by explicit digit extraction. -/
def pad5 (p : Nat) : String :=
  ⟨[digitChar (p / 10000 % 10), digitChar (p / 1000 % 10), digitChar (p / 100 % 10),
    digitChar (p / 10 % 10), digitChar (p % 10)]⟩

/-- Decoder used to state that `pad5` really is the base-10 value of its
five digit characters: the numeric value of one ASCII digit. -/
def digitVal (c : Char) : Option Nat :=
  if 48 ≤ c.toNat ∧ c.toNat ≤ 57 then some (c.toNat - 48) else none

/-- Decoder for a width-5 zero-filled decimal string: succeeds exactly on
five-character strings of ASCII digits and returns their base-10 value. -/
def decode5 (s : String) : Option Nat :=
  match s.data with
  | [c4, c3, c2, c1, c0] => do
    let d4 ← digitVal c4
    let d3 ← digitVal c3
    let d2 ← digitVal c2
    let d1 ← digitVal c1
    let d0 ← digitVal c0
    pure ((((d4 * 10 + d3) * 10 + d2) * 10 + d1) * 10 + d0)
  | _ => none

/-! ### The `cfg` predicates

The macro emits `cfg`/`cfg_attr` conditions over the target operating system;
they are functions of the `target_os` configuration string. -/

/-- `cfg_windows()`: the condition `target_os = "windows"`. -/
def cfg_windows (target_os : String) : Bool := target_os == "windows"

/-- `cfg_apple()`: the condition `any(target_os = "macos", target_os = "ios")`. -/
def cfg_apple (target_os : String) : Bool := target_os == "macos" || target_os == "ios"

/-- `cfg_unix()`: the condition `any(target_os = "linux", target_os = "android")`. -/
def cfg_unix (target_os : String) : Bool := target_os == "linux" || target_os == "android"

/-- `cfg_unsupported()`: the negation of the disjunction of the three
supported-family conditions. -/
def cfg_unsupported (target_os : String) : Bool :=
  !(cfg_windows target_os || cfg_apple target_os || cfg_unix target_os)

/-! ### The attribute blocks emitted per phase -/

/-- The token block produced by `get_initializer_attributes` /
`get_deinitializer_attributes`: a compile-error item guarded by
`cfg(unsupported)` and one `link_section` attribute per supported family,
each guarded by `cfg_attr` for that family. -/
structure SectionAttrs where
  /-- Message of the error item emitted under `cfg(unsupported)`. -/
  error_item : String
  /-- `link_section` applied under `cfg_attr(windows-family)`. -/
  win_section : String
  /-- `link_section` applied under `cfg_attr(apple-family)`. -/
  apple_section : String
  /-- `link_section` applied under `cfg_attr(unix-family)`. -/
  unix_section : String
deriving DecidableEq

/-- `get_initializer_attributes(priority)`. -/
def get_initializer_attributes (priority : Nat) : SectionAttrs :=
  { error_item := "Unsupported Target OS!",
    win_section := ".CRT$XCU" ++ pad5 priority,
    apple_section := "__DATA,__mod_init_func",
    unix_section := ".init_array." ++ pad5 priority }

/-- `get_deinitializer_attributes(priority)`. -/
def get_deinitializer_attributes (priority : Nat) : SectionAttrs :=
  { error_item := "Unsupported Target OS!",
    win_section := ".CRT$XPTZ" ++ pad5 priority,
    apple_section := "__DATA,__mod_term_func",
    unix_section := ".fini_array." ++ pad5 priority }

/-- `cfg_attr` resolution by the target-language compiler for a given
`target_os`: the `link_section` attribute that ends up applied, if any.
The three family conditions are mutually exclusive, so at most one applies. -/
def effectiveSection (target_os : String) (a : SectionAttrs) : Option String :=
  if cfg_windows target_os then some a.win_section
  else if cfg_apple target_os then some a.apple_section
  else if cfg_unix target_os then some a.unix_section
  else none

/-- Full resolution of one attribute block by the compiler: on an unsupported
family the guarded error item is kept and the build fails; on a supported
family the matching `link_section` name is produced. -/
def resolveAttrs (target_os : String) (a : SectionAttrs) : Except String String :=
  if cfg_unsupported target_os then Except.error a.error_item
  else
    match effectiveSection target_os a with
    | some s => Except.ok s
    | none => Except.error a.error_item

/-- The two lifecycle phases a registration entry can belong to. -/
inductive Phase where
  | construct
  | destruct
deriving DecidableEq

/-- The attribute block the macro emits for a phase. -/
def phaseAttrs (ph : Phase) (priority : Nat) : SectionAttrs :=
  match ph with
  | Phase.construct => get_initializer_attributes priority
  | Phase.destruct => get_deinitializer_attributes priority

/-- The section scheduler as one function: the section name selected for a
target, a phase and a priority, `none` when no family condition matches. -/
def sectionName (target_os : String) (ph : Phase) (priority : Nat) : Option String :=
  effectiveSection target_os (phaseAttrs ph priority)

/-! ### The binding descriptor and the expansion -/

/-- Capabilities of the value type of a binding, as seen by the target-language
trait system: whether it implements `Sync` and whether it is `Sized`. -/
structure RustType where
  isSync : Bool
  isSized : Bool
deriving DecidableEq

/-- Visibility of a declared binding (`syn::Visibility`, collapsed to whether
an explicit visibility token was written). -/
inductive Visibility where
  | pub
  | inherited
deriving DecidableEq

/-- The parsed declaration: `struct StaticWithInitializer` of the macro crate.
The initializer block is kept abstract as its source text. -/
structure StaticWithInitializer where
  vis : Visibility
  name : String
  ty : RustType
  init : String
deriving DecidableEq

/-- ASCII lowercasing of one character, the behaviour of Rust
`str::to_lowercase` on the ASCII identifier characters relevant here. -/
def asciiToLower (c : Char) : Char :=
  if 65 ≤ c.toNat ∧ c.toNat ≤ 90 then Char.ofNat (c.toNat + 32) else c

/-- `var.to_string().to_lowercase()` (restricted to ASCII identifiers). -/
def to_lowercase (s : String) : String := ⟨s.data.map asciiToLower⟩

/-- `get_module_ident`: the name of the generated hidden storage module. -/
def get_module_ident (var : String) : String :=
  "__static_init_module_n" ++ to_lowercase var

/-- Module names generated for a list of bindings declared in one scope. -/
def moduleNames (bindings : List String) : List String :=
  bindings.map get_module_ident

/-- The structure of the expansion `static_init` emits for one declaration:
the visible handle struct, the hidden module, the two capability assertions
(each one a struct whose `where` clause demands the trait of the value type),
and the attribute blocks for the two registration entries. -/
structure Expanded where
  vis : Visibility
  handle_name : String
  module_name : String
  /-- Type constrained by the emitted `_AssertSync` item (`where ty: Sync`). -/
  sync_required : RustType
  /-- Type constrained by the emitted `_AssertSized` item (`where ty: Sized`). -/
  sized_required : RustType
  init_attrs : SectionAttrs
  deinit_attrs : SectionAttrs
deriving DecidableEq

/-- The `static_init` macro body: expansion of one parsed declaration.
The priority is the fixed local `priority: u16 = 65535`. -/
def static_init (s : StaticWithInitializer) : Expanded :=
  let priority : Nat := 65535
  { vis := s.vis,
    handle_name := s.name,
    module_name := get_module_ident s.name,
    sync_required := s.ty,
    sized_required := s.ty,
    init_attrs := get_initializer_attributes priority,
    deinit_attrs := get_deinitializer_attributes priority }

/-- Typechecking of the two emitted assertion items by the target-language
compiler: `_AssertSync` compiles only if the value type is `Sync`,
`_AssertSized` only if it is `Sized`; success carries no data. -/
def typecheckAsserts (e : Expanded) : Except String Unit :=
  if e.sync_required.isSync = false then
    Except.error "the trait bound Sync is not satisfied"
  else if e.sized_required.isSized = false then
    Except.error "the trait bound Sized is not satisfied"
  else Except.ok ()

/-- What a successful build of one expansion produces: the two registered
entries with their resolved section names, and the storage module. -/
structure Artifact where
  init_section : String
  deinit_section : String
  module_name : String
deriving DecidableEq

/-- Build of one expansion for a target: the assertion items must typecheck
and both attribute blocks must resolve; any failure aborts the build before
an artifact exists. -/
def buildOutcome (target_os : String) (e : Expanded) : Except String Artifact :=
  match typecheckAsserts e with
  | Except.error msg => Except.error msg
  | Except.ok _ =>
    match resolveAttrs target_os e.init_attrs with
    | Except.error msg => Except.error msg
    | Except.ok i =>
      match resolveAttrs target_os e.deinit_attrs with
      | Except.error msg => Except.error msg
      | Except.ok dsec =>
        Except.ok { init_section := i, deinit_section := dsec,
                    module_name := e.module_name }

end StaticInitializer

namespace StaticInitializer.Generated

/-!  ### The generated storage cell and its procedures

`static mut INTERNAL: MaybeUninit<T>` together with the logical lifecycle the
code relies on.  The `assume_init_*` operations are undefined behaviour unless
the cell holds an initialized value; the embedding returns `none` there. -/

/-- Logical state of the storage cell: `MaybeUninit::uninit()` as emitted,
after `write`, and after `assume_init_drop`. -/
inductive CellState (α : Type) where
  | uninitialized
  | initialized (val : α)
  | destroyed
deriving DecidableEq

/-- `MaybeUninit::write(v)`: stores `v` unconditionally; the operation
inspects no state and guards nothing. -/
def write {α : Type} (_c : CellState α) (v : α) : CellState α :=
  CellState.initialized v

/-- `MaybeUninit::assume_init_drop()`: runs the teardown of the contained
value; defined behaviour only on an initialized cell. -/
def assume_init_drop {α : Type} (c : CellState α) : Option (CellState α) :=
  match c with
  | CellState.initialized _ => some CellState.destroyed
  | _ => none

/-- `MaybeUninit::assume_init_ref()`: a shared reference to the contained
value; defined behaviour only on an initialized cell. -/
def assume_init_ref {α : Type} (c : CellState α) : Option α :=
  match c with
  | CellState.initialized v => some v
  | _ => none

/-- The generated constructor procedure `init()`: evaluates the initializer
block and writes its result into `INTERNAL`. -/
def init {α : Type} (initializer : Unit → α) (c : CellState α) : CellState α :=
  write c (initializer ())

/-- `init()` with the initializer instrumented to count its evaluations:
`eval` receives the running count and returns the produced value together
with the updated count.  The body evaluates `eval` the same number of times
`init()` evaluates the initializer block. -/
def initCounting {α : Type} (eval : Nat → α × Nat) (c : CellState α) (n : Nat) :
    CellState α × Nat :=
  let r := eval n
  (write c r.1, r.2)

/-- The generated destructor procedure `deinit()`:
`INTERNAL.assume_init_drop()`. -/
def deinit {α : Type} (c : CellState α) : Option (CellState α) :=
  assume_init_drop c

/-- The access facade: `Deref::deref` of the generated handle struct,
`(&*get_raw()).assume_init_ref()`.  No state is consulted beyond the read. -/
def deref {α : Type} (c : CellState α) : Option α :=
  assume_init_ref c

end StaticInitializer.Generated

namespace StaticInitializer

/-! ### The declaration grammar -/

/-- Tokens of the declaration as consumed by
`impl Parse for StaticWithInitializer`.  A visibility, a type and the
initializer block are each abstracted to one token, since `syn` parses them
as single nonterminals. -/
inductive Tok where
  | visTok
  | staticKw
  | unsafeKw
  | identTok (name : String)
  | colonTok
  | tyTok (ty : RustType)
  | eqTok
  | blockTok (body : String)
  | semiTok
deriving DecidableEq

/-- `input.parse::<Visibility>()`: never fails; consumes a leading visibility
token when present, otherwise yields the inherited visibility. -/
def parseVisibility (toks : List Tok) : Visibility × List Tok :=
  match toks with
  | Tok.visTok :: rest => (Visibility.pub, rest)
  | _ => (Visibility.inherited, toks)

/-- `input.parse::<Token![...]>()`: consumes exactly the expected token. -/
def expectTok (t : Tok) (toks : List Tok) : Except String (List Tok) :=
  match toks with
  | t' :: rest => if t' = t then Except.ok rest else Except.error "unexpected token"
  | [] => Except.error "unexpected end of input"

/-- The parse sequence of `impl Parse for StaticWithInitializer`:
visibility, `static`, identifier, `:`, type, `=`, `unsafe`, `static`,
initializer block, `;`. -/
def parseStaticWithInitializer (toks : List Tok) :
    Except String (StaticWithInitializer × List Tok) := do
  let (vis, toks) := parseVisibility toks
  let toks ← expectTok Tok.staticKw toks
  match toks with
  | Tok.identTok name :: toks => do
    let toks ← expectTok Tok.colonTok toks
    match toks with
    | Tok.tyTok ty :: toks => do
      let toks ← expectTok Tok.eqTok toks
      let toks ← expectTok Tok.unsafeKw toks
      let toks ← expectTok Tok.staticKw toks
      match toks with
      | Tok.blockTok body :: toks => do
        let toks ← expectTok Tok.semiTok toks
        Except.ok ({ vis := vis, name := name, ty := ty, init := body }, toks)
      | _ => Except.error "expected an initializer block"
    | _ => Except.error "expected a type"
  | _ => Except.error "expected an identifier"

/-- Token sequence of a well-formed declaration, with or without an explicit
visibility. -/
def declTokens (hasVis : Bool) (name : String) (ty : RustType) (body : String) :
    List Tok :=
  (if hasVis then [Tok.visTok] else []) ++
    [Tok.staticKw, Tok.identTok name, Tok.colonTok, Tok.tyTok ty, Tok.eqTok,
     Tok.unsafeKw, Tok.staticKw, Tok.blockTok body, Tok.semiTok]

end StaticInitializer

namespace StaticInitializer

/-! ### Helper lemmas about digits and the rendered priority -/

theorem digitChar_inj :
    ∀ a, a < 10 → ∀ b, b < 10 → digitChar a = digitChar b → a = b := by decide

theorem digitChar_lt_digitChar :
    ∀ a, a < 10 → ∀ b, b < 10 → a < b → digitChar a < digitChar b := by decide

theorem digitVal_digitChar : ∀ d, d < 10 → digitVal (digitChar d) = some d := by decide

theorem pad5_length (p : Nat) : (pad5 p).length = 5 := rfl

theorem pad5_inj {p q : Nat} (hp : p < 100000) (hq : q < 100000)
    (h : pad5 p = pad5 q) : p = q := by
  have h' : [digitChar (p / 10000 % 10), digitChar (p / 1000 % 10), digitChar (p / 100 % 10),
      digitChar (p / 10 % 10), digitChar (p % 10)] =
      [digitChar (q / 10000 % 10), digitChar (q / 1000 % 10), digitChar (q / 100 % 10),
      digitChar (q / 10 % 10), digitChar (q % 10)] := congrArg String.data h
  simp only [List.cons.injEq, and_true] at h'
  obtain ⟨h4, h3, h2, h1, h0⟩ := h'
  have e4 := digitChar_inj _ (Nat.mod_lt _ (by omega)) _ (Nat.mod_lt _ (by omega)) h4
  have e3 := digitChar_inj _ (Nat.mod_lt _ (by omega)) _ (Nat.mod_lt _ (by omega)) h3
  have e2 := digitChar_inj _ (Nat.mod_lt _ (by omega)) _ (Nat.mod_lt _ (by omega)) h2
  have e1 := digitChar_inj _ (Nat.mod_lt _ (by omega)) _ (Nat.mod_lt _ (by omega)) h1
  have e0 := digitChar_inj _ (Nat.mod_lt _ (by omega)) _ (Nat.mod_lt _ (by omega)) h0
  omega

theorem decode5_pad5 {p : Nat} (hp : p < 100000) : decode5 (pad5 p) = some p := by
  have e4 := digitVal_digitChar (p / 10000 % 10) (Nat.mod_lt _ (by omega))
  have e3 := digitVal_digitChar (p / 1000 % 10) (Nat.mod_lt _ (by omega))
  have e2 := digitVal_digitChar (p / 100 % 10) (Nat.mod_lt _ (by omega))
  have e1 := digitVal_digitChar (p / 10 % 10) (Nat.mod_lt _ (by omega))
  have e0 := digitVal_digitChar (p % 10) (Nat.mod_lt _ (by omega))
  show (do
    let d4 ← digitVal (digitChar (p / 10000 % 10))
    let d3 ← digitVal (digitChar (p / 1000 % 10))
    let d2 ← digitVal (digitChar (p / 100 % 10))
    let d1 ← digitVal (digitChar (p / 10 % 10))
    let d0 ← digitVal (digitChar (p % 10))
    pure ((((d4 * 10 + d3) * 10 + d2) * 10 + d1) * 10 + d0) : Option Nat) = some p
  rw [e4, e3, e2, e1, e0]
  show some ((((p / 10000 % 10 * 10 + p / 1000 % 10) * 10 + p / 100 % 10) * 10
      + p / 10 % 10) * 10 + p % 10) = some p
  exact congrArg some (by omega)

theorem pad5_lt {p q : Nat} (hpq : p < q) (hq : q < 100000) : pad5 p < pad5 q := by
  have hp : p < 100000 := Nat.lt_trans hpq hq
  rw [String.lt_iff_toList_lt]
  show List.Lex (fun a b => a < b)
    [digitChar (p / 10000 % 10), digitChar (p / 1000 % 10), digitChar (p / 100 % 10),
     digitChar (p / 10 % 10), digitChar (p % 10)]
    [digitChar (q / 10000 % 10), digitChar (q / 1000 % 10), digitChar (q / 100 % 10),
     digitChar (q / 10 % 10), digitChar (q % 10)]
  rcases Nat.lt_trichotomy (p / 10000 % 10) (q / 10000 % 10) with h4 | h4 | h4
  · exact List.Lex.rel (digitChar_lt_digitChar _ (by omega) _ (by omega) h4)
  · rw [h4]
    refine List.Lex.cons ?_
    rcases Nat.lt_trichotomy (p / 1000 % 10) (q / 1000 % 10) with h3 | h3 | h3
    · exact List.Lex.rel (digitChar_lt_digitChar _ (by omega) _ (by omega) h3)
    · rw [h3]
      refine List.Lex.cons ?_
      rcases Nat.lt_trichotomy (p / 100 % 10) (q / 100 % 10) with h2 | h2 | h2
      · exact List.Lex.rel (digitChar_lt_digitChar _ (by omega) _ (by omega) h2)
      · rw [h2]
        refine List.Lex.cons ?_
        rcases Nat.lt_trichotomy (p / 10 % 10) (q / 10 % 10) with h1 | h1 | h1
        · exact List.Lex.rel (digitChar_lt_digitChar _ (by omega) _ (by omega) h1)
        · rw [h1]
          refine List.Lex.cons ?_
          exact List.Lex.rel (digitChar_lt_digitChar _ (by omega) _ (by omega) (by omega))
        · exact absurd hpq (by omega)
      · exact absurd hpq (by omega)
    · exact absurd hpq (by omega)
  · exact absurd hpq (by omega)

/-! ### Helper lemmas about string concatenation -/

theorem string_append_right_lt (pre : String) {s t : String} (h : s < t) :
    pre ++ s < pre ++ t := by
  rw [String.lt_iff_toList_lt] at h ⊢
  have hs : (pre ++ s).toList = pre.toList ++ s.toList := String.data_append pre s
  have ht : (pre ++ t).toList = pre.toList ++ t.toList := String.data_append pre t
  rw [hs, ht]
  induction pre.toList with
  | nil => exact h
  | cons c cl ih => exact List.Lex.cons ih

theorem string_append_cancel_left {pre s₁ s₂ : String} (h : pre ++ s₁ = pre ++ s₂) :
    s₁ = s₂ := by
  apply String.ext
  have hd := congrArg String.data h
  rw [String.data_append, String.data_append] at hd
  exact List.append_cancel_left hd

theorem string_append_len_ne {pre₁ pre₂ s₁ s₂ : String}
    (hlen : pre₁.length ≠ pre₂.length) (hs : s₁.length = s₂.length)
    (h : pre₁ ++ s₁ = pre₂ ++ s₂) : False := by
  have := congrArg String.length h
  rw [String.length_append, String.length_append] at this
  omega

theorem string_append_ne_of_prefix_ne {pre₁ pre₂ s₁ s₂ : String}
    (hlen : pre₁.length = pre₂.length) (hne : pre₁ ≠ pre₂)
    (h : pre₁ ++ s₁ = pre₂ ++ s₂) : False := by
  apply hne
  apply String.ext
  have hd := congrArg String.data h
  rw [String.data_append, String.data_append] at hd
  have h₁ := congrArg (List.take pre₁.data.length) hd
  rw [List.take_left] at h₁
  have hlen' : pre₁.data.length = pre₂.data.length := hlen
  rw [hlen', List.take_left] at h₁
  exact h₁

/-! ### Helper lemmas about the `cfg` conditions and the scheduler -/

theorem cfg_windows_eq {os : String} (h : cfg_windows os = true) : os = "windows" := by
  simpa [cfg_windows] using h

theorem cfg_apple_eq {os : String} (h : cfg_apple os = true) :
    os = "macos" ∨ os = "ios" := by
  simpa [cfg_apple] using h

theorem cfg_unix_eq {os : String} (h : cfg_unix os = true) :
    os = "linux" ∨ os = "android" := by
  simpa [cfg_unix] using h

theorem cfg_unsupported_eq {os : String} (h : cfg_unsupported os = true) :
    cfg_windows os = false ∧ cfg_apple os = false ∧ cfg_unix os = false := by
  simp only [cfg_unsupported, Bool.not_eq_eq_eq_not, Bool.not_true,
    Bool.or_eq_false_iff] at h
  exact ⟨h.1.1, h.1.2, h.2⟩

theorem sectionName_of_windows {os : String} (h : cfg_windows os = true)
    (ph : Phase) (p : Nat) :
    sectionName os ph p = some (phaseAttrs ph p).win_section := by
  rw [cfg_windows_eq h]; rfl

theorem sectionName_of_apple {os : String} (h : cfg_apple os = true)
    (ph : Phase) (p : Nat) :
    sectionName os ph p = some (phaseAttrs ph p).apple_section := by
  rcases cfg_apple_eq h with h' | h' <;> rw [h'] <;> rfl

theorem sectionName_of_unix {os : String} (h : cfg_unix os = true)
    (ph : Phase) (p : Nat) :
    sectionName os ph p = some (phaseAttrs ph p).unix_section := by
  rcases cfg_unix_eq h with h' | h' <;> rw [h'] <;> rfl

/-! ### Helper lemmas about the expansion -/

theorem static_init_sync_required (d : StaticWithInitializer) :
    (static_init d).sync_required = d.ty := rfl

theorem static_init_sized_required (d : StaticWithInitializer) :
    (static_init d).sized_required = d.ty := rfl

theorem static_init_init_attrs (d : StaticWithInitializer) :
    (static_init d).init_attrs = get_initializer_attributes 65535 := rfl

theorem static_init_deinit_attrs (d : StaticWithInitializer) :
    (static_init d).deinit_attrs = get_deinitializer_attributes 65535 := rfl

theorem buildOutcome_isOk_false_of_typecheck {e : Expanded} (target_os : String)
    (h : (typecheckAsserts e).isOk = false) :
    (buildOutcome target_os e).isOk = false := by
  unfold buildOutcome
  cases htc : typecheckAsserts e with
  | error msg => rfl
  | ok u => rw [htc] at h; simp [Except.isOk, Except.toBool] at h

/-! ### The claims -/

/-- C1: for every binding generated by `static_init!`, once the generated
constructor procedure has run on the uninitialized cell (so the cell is
`initialized` and the destructor has not run), reading through the access
facade (the generated `Deref` implementation) yields exactly the value
produced by the initializer block.  The facade performs no runtime
initialization check: on an initialized cell holding `v` it returns `v`
directly (first conjunct), and the value it returns after the constructor ran
is precisely the initializer's result (second conjunct). -/
theorem c1_access_facade_reads_initializer_value (α : Type) (f : Unit → α) :
    (∀ v : α, Generated.deref (Generated.CellState.initialized v) = some v) ∧
    Generated.deref (Generated.init f Generated.CellState.uninitialized) = some (f ()) :=
  ⟨fun _ => rfl, rfl⟩

/-- C2: the storage cell follows `uninitialized → initialized → destroyed`.
The generated constructor writes the initializer's result unconditionally
(conjunct 1: it holds for every prior state, hence carries no already-run
guard), evaluates the initializer exactly once (conjunct 2, with the
initializer instrumented to count evaluations), the generated destructor is
the only transition out of `initialized` and only ever produces `destroyed`
(conjuncts 3 and 4), it has no already-run guard either: invoking it outside
`initialized` is undefined behaviour, not a skipped call (conjuncts 5 and 6),
and the full lifecycle run reaches `destroyed` (conjunct 7). -/
theorem c2_cell_state_machine (α : Type) (f g : Unit → α) :
    (∀ c : Generated.CellState α,
      Generated.init f c = Generated.CellState.initialized (f ())) ∧
    (∀ (c : Generated.CellState α) (n : Nat),
      Generated.initCounting (fun k => (g (), k + 1)) c n =
        (Generated.CellState.initialized (g ()), n + 1)) ∧
    (∀ v : α, Generated.deinit (Generated.CellState.initialized v) =
      some Generated.CellState.destroyed) ∧
    (∀ (c c' : Generated.CellState α), Generated.deinit c = some c' →
      c' = Generated.CellState.destroyed) ∧
    Generated.deinit (Generated.CellState.uninitialized : Generated.CellState α) = none ∧
    Generated.deinit (Generated.CellState.destroyed : Generated.CellState α) = none ∧
    Generated.deinit (Generated.init f Generated.CellState.uninitialized) =
      some Generated.CellState.destroyed := by
  refine ⟨fun c => rfl, fun c n => rfl, fun v => rfl, ?_, rfl, rfl, rfl⟩
  intro c c' h
  cases c with
  | uninitialized => simp [Generated.deinit, Generated.assume_init_drop] at h
  | initialized v =>
    simp only [Generated.deinit, Generated.assume_init_drop, Option.some.injEq] at h
    exact h.symm
  | destroyed => simp [Generated.deinit, Generated.assume_init_drop] at h

theorem c2_cell_state_machine_witness :
    Generated.deinit (Generated.init (fun _ => (7 : Nat))
      Generated.CellState.uninitialized) = some Generated.CellState.destroyed ∧
    Generated.CellState.destroyed = (Generated.CellState.destroyed : Generated.CellState Nat) := by
  have h := c2_cell_state_machine Nat (fun _ => 7) (fun _ => 7)
  exact ⟨h.2.2.2.2.2.2,
    h.2.2.2.1 (Generated.CellState.initialized 7) Generated.CellState.destroyed rfl⟩

/-- C5: every binding is declared without an explicit priority (the grammar
offers none), and the expansion uses priority `65535` — the maximum `u16`
value — for both the constructor and the destructor attribute blocks, so both
section names carry the rendered digits `65535`. -/
theorem c5_default_priority_is_u16_max (d : StaticWithInitializer) :
    (static_init d).init_attrs = get_initializer_attributes 65535 ∧
    (static_init d).deinit_attrs = get_deinitializer_attributes 65535 ∧
    pad5 65535 = "65535" ∧
    (static_init d).init_attrs.win_section = ".CRT$XCU65535" ∧
    (static_init d).init_attrs.unix_section = ".init_array.65535" ∧
    (static_init d).deinit_attrs.win_section = ".CRT$XPTZ65535" ∧
    (static_init d).deinit_attrs.unix_section = ".fini_array.65535" := by
  refine ⟨rfl, rfl, by decide, ?_, ?_, ?_, ?_⟩
  · show (get_initializer_attributes 65535).win_section = ".CRT$XCU65535"
    decide
  · show (get_initializer_attributes 65535).unix_section = ".init_array.65535"
    decide
  · show (get_deinitializer_attributes 65535).win_section = ".CRT$XPTZ65535"
    decide
  · show (get_deinitializer_attributes 65535).unix_section = ".fini_array.65535"
    decide

/-- C9, counterexample: the claimed surface form — optional visibility,
`static`, identifier, colon, type, equals sign, initializer block, semicolon,
with nothing between the equals sign and the block — is rejected by the
parser, because `impl Parse for StaticWithInitializer` demands the `unsafe`
and `static` keywords before the initializer block. -/
theorem c9_counterexample :
    (parseStaticWithInitializer
      [Tok.staticKw, Tok.identTok "FOO", Tok.colonTok,
       Tok.tyTok { isSync := true, isSized := true }, Tok.eqTok,
       Tok.blockTok "body", Tok.semiTok]).isOk = false := rfl

/-- C9, amended: parsing a declaration of the surface form
`visibility? static name : type = unsafe static initializer-block ;`
(the keywords `unsafe` and `static` are required between the equals sign and
the initializer block) succeeds, consumes the whole input, and yields exactly
one descriptor carrying that visibility, name, type, and initializer. -/
theorem c9_parse_declaration (hasVis : Bool) (name : String) (ty : RustType)
    (body : String) :
    parseStaticWithInitializer (declTokens hasVis name ty body) =
      Except.ok ({ vis := if hasVis then Visibility.pub else Visibility.inherited,
                   name := name, ty := ty, init := body }, []) := by
  cases hasVis <;> rfl

/-- C10: the generated storage-module name lowercases the binding name, so
the mapping is not injective: the distinct binding names `FOO` and `foo`
yield one and the same module name, and a scope declaring both generates two
modules with equal names — a duplicate definition, which the target-language
compiler rejects, rather than two independent storage cells. -/
theorem c10_module_ident_case_collision :
    get_module_ident "FOO" = get_module_ident "foo" ∧
    ("FOO" : String) ≠ "foo" ∧
    get_module_ident "FOO" = "__static_init_module_nfoo" ∧
    ¬ (moduleNames ["FOO", "foo"]).Nodup := by
  exact ⟨by decide, by decide, by decide, by decide⟩

/-- C3: on a target operating system outside the supported set (not
Windows-like, Apple-like or Unix-like) the scheduler produces no section name
for either phase; instead the guarded error item survives `cfg` resolution,
so every binding's build fails with a build-time error and no artifact is
produced — there is no runtime fallback. -/
theorem c3_unsupported_target_is_build_error (target_os : String) (p : Nat)
    (d : StaticWithInitializer) (h : cfg_unsupported target_os = true) :
    effectiveSection target_os (get_initializer_attributes p) = none ∧
    effectiveSection target_os (get_deinitializer_attributes p) = none ∧
    resolveAttrs target_os (get_initializer_attributes p) =
      Except.error "Unsupported Target OS!" ∧
    resolveAttrs target_os (get_deinitializer_attributes p) =
      Except.error "Unsupported Target OS!" ∧
    (buildOutcome target_os (static_init d)).isOk = false := by
  obtain ⟨hw, ha, hu⟩ := cfg_unsupported_eq h
  have he : ∀ a : SectionAttrs, effectiveSection target_os a = none := by
    intro a
    simp [effectiveSection, hw, ha, hu]
  have hr : ∀ a : SectionAttrs, resolveAttrs target_os a = Except.error a.error_item := by
    intro a
    simp [resolveAttrs, h]
  refine ⟨he _, he _, hr _, hr _, ?_⟩
  unfold buildOutcome
  cases htc : typecheckAsserts (static_init d) with
  | error msg => rfl
  | ok u =>
    rw [hr (static_init d).init_attrs]
    rfl

theorem c3_unsupported_target_is_build_error_witness :
    effectiveSection "wasm32" (get_initializer_attributes 0) = none ∧
    effectiveSection "wasm32" (get_deinitializer_attributes 0) = none ∧
    resolveAttrs "wasm32" (get_initializer_attributes 0) =
      Except.error "Unsupported Target OS!" ∧
    resolveAttrs "wasm32" (get_deinitializer_attributes 0) =
      Except.error "Unsupported Target OS!" ∧
    (buildOutcome "wasm32" (static_init
      { vis := Visibility.inherited, name := "FOO",
        ty := { isSync := true, isSized := true }, init := "body" })).isOk = false :=
  c3_unsupported_target_is_build_error "wasm32" 0
    { vis := Visibility.inherited, name := "FOO",
      ty := { isSync := true, isSized := true }, init := "body" } (by decide)

/-- C4: for a binding whose value type lacks the `Sync` capability or the
`Sized` capability, the emitted assertion items fail to typecheck and the
build of the expansion fails on every target, before any artifact is
produced.  The assertions carry no data on success (`Except String Unit`) and
the artifact is built from the section names and module name alone, so the
check has no effect beyond this pass/fail signal. -/
theorem c4_capability_check_blocks_build (target_os : String)
    (d : StaticWithInitializer) (h : d.ty.isSync = false ∨ d.ty.isSized = false) :
    (typecheckAsserts (static_init d)).isOk = false ∧
    (buildOutcome target_os (static_init d)).isOk = false := by
  have htc : (typecheckAsserts (static_init d)).isOk = false := by
    rcases h with h | h
    · simp [typecheckAsserts, static_init_sync_required, h, Except.isOk, Except.toBool]
    · cases hs : d.ty.isSync with
      | false =>
        simp [typecheckAsserts, static_init_sync_required, hs, Except.isOk, Except.toBool]
      | true =>
        simp [typecheckAsserts, static_init_sync_required, static_init_sized_required, hs, h,
          Except.isOk, Except.toBool]
  exact ⟨htc, buildOutcome_isOk_false_of_typecheck target_os htc⟩

theorem c4_capability_check_blocks_build_witness :
    (typecheckAsserts (static_init
      { vis := Visibility.pub, name := "NOT_SYNC",
        ty := { isSync := false, isSized := true }, init := "body" })).isOk = false ∧
    (buildOutcome "linux" (static_init
      { vis := Visibility.pub, name := "NOT_SYNC",
        ty := { isSync := false, isSized := true }, init := "body" })).isOk = false :=
  c4_capability_check_blocks_build "linux"
    { vis := Visibility.pub, name := "NOT_SYNC",
      ty := { isSync := false, isSized := true }, init := "body" } (Or.inl rfl)

/-- C6: for every priority `p ≤ 65535` the Windows-like constructor section
name is the fixed string `.CRT$XCU` followed by `pad5 p`, the Windows-like
destructor section name is the distinct fixed string `.CRT$XPTZ` followed by
the same encoding, and the Unix-like constructor and destructor section names
are the fixed strings `.init_array` and `.fini_array`, each followed by a `.`
and the same encoding; `pad5 p` is five characters long and decodes (as a
base-10 numeral) back to `p`, i.e. it is `p` zero-filled to five decimal
digits. -/
theorem c6_section_name_encoding (p : Nat) (hp : p ≤ 65535) :
    (get_initializer_attributes p).win_section = ".CRT$XCU" ++ pad5 p ∧
    (get_deinitializer_attributes p).win_section = ".CRT$XPTZ" ++ pad5 p ∧
    (".CRT$XCU" : String) ≠ ".CRT$XPTZ" ∧
    (get_initializer_attributes p).unix_section = ".init_array" ++ "." ++ pad5 p ∧
    (get_deinitializer_attributes p).unix_section = ".fini_array" ++ "." ++ pad5 p ∧
    (".init_array" : String) ≠ ".fini_array" ∧
    (pad5 p).length = 5 ∧
    decode5 (pad5 p) = some p := by
  have h1 : (".init_array" ++ "." : String) = ".init_array." := by decide
  have h2 : (".fini_array" ++ "." : String) = ".fini_array." := by decide
  refine ⟨rfl, rfl, by decide, ?_, ?_, by decide, rfl, decode5_pad5 (by omega)⟩
  · rw [h1]; rfl
  · rw [h2]; rfl

theorem c6_section_name_encoding_witness :
    (get_initializer_attributes 437).win_section = ".CRT$XCU" ++ pad5 437 ∧
    (get_deinitializer_attributes 437).win_section = ".CRT$XPTZ" ++ pad5 437 ∧
    (".CRT$XCU" : String) ≠ ".CRT$XPTZ" ∧
    (get_initializer_attributes 437).unix_section = ".init_array" ++ "." ++ pad5 437 ∧
    (get_deinitializer_attributes 437).unix_section = ".fini_array" ++ "." ++ pad5 437 ∧
    (".init_array" : String) ≠ ".fini_array" ∧
    (pad5 437).length = 5 ∧
    decode5 (pad5 437) = some 437 :=
  c6_section_name_encoding 437 (by decide)

/-- C7: the section scheduler is a function of `(target_os, phase, priority)`
(hence deterministic); it is total on every supported family (conjunct 1);
within the Windows-like family and within the Unix-like family it is
injective with respect to the pair `(phase, priority)` over priorities in
`[0, 65535]` (conjuncts 2 and 3); and on the Apple-like family every
priority maps to one single fixed name per phase (conjunct 4). -/
theorem c7_scheduler_total_and_injective :
    (∀ (target_os : String) (ph : Phase) (p : Nat), cfg_unsupported target_os = false →
      (sectionName target_os ph p).isSome = true) ∧
    (∀ (target_os : String) (ph₁ : Phase) (p₁ : Nat) (ph₂ : Phase) (p₂ : Nat),
      cfg_windows target_os = true → p₁ ≤ 65535 → p₂ ≤ 65535 →
      sectionName target_os ph₁ p₁ = sectionName target_os ph₂ p₂ →
      ph₁ = ph₂ ∧ p₁ = p₂) ∧
    (∀ (target_os : String) (ph₁ : Phase) (p₁ : Nat) (ph₂ : Phase) (p₂ : Nat),
      cfg_unix target_os = true → p₁ ≤ 65535 → p₂ ≤ 65535 →
      sectionName target_os ph₁ p₁ = sectionName target_os ph₂ p₂ →
      ph₁ = ph₂ ∧ p₁ = p₂) ∧
    (∀ (target_os : String) (ph : Phase) (p₁ p₂ : Nat), cfg_apple target_os = true →
      sectionName target_os ph p₁ = sectionName target_os ph p₂) := by
  refine ⟨?_, ?_, ?_, ?_⟩
  · intro os ph p h
    unfold sectionName effectiveSection
    cases hw : cfg_windows os with
    | true => simp
    | false =>
      cases ha : cfg_apple os with
      | true => simp
      | false =>
        cases hu : cfg_unix os with
        | true => simp
        | false => simp [cfg_unsupported, hw, ha, hu] at h
  · intro os ph₁ p₁ ph₂ p₂ hw h₁ h₂ hsec
    rw [sectionName_of_windows hw, sectionName_of_windows hw, Option.some.injEq] at hsec
    cases ph₁ <;> cases ph₂
    · refine ⟨rfl, ?_⟩
      have h' : (".CRT$XCU" ++ pad5 p₁ : String) = ".CRT$XCU" ++ pad5 p₂ := hsec
      exact pad5_inj (by omega) (by omega) (string_append_cancel_left h')
    · have h' : (".CRT$XCU" ++ pad5 p₁ : String) = ".CRT$XPTZ" ++ pad5 p₂ := hsec
      exfalso
      refine string_append_len_ne ?_ ?_ h'
      · decide
      · rfl
    · have h' : (".CRT$XPTZ" ++ pad5 p₁ : String) = ".CRT$XCU" ++ pad5 p₂ := hsec
      exfalso
      refine string_append_len_ne ?_ ?_ h'
      · decide
      · rfl
    · refine ⟨rfl, ?_⟩
      have h' : (".CRT$XPTZ" ++ pad5 p₁ : String) = ".CRT$XPTZ" ++ pad5 p₂ := hsec
      exact pad5_inj (by omega) (by omega) (string_append_cancel_left h')
  · intro os ph₁ p₁ ph₂ p₂ hu h₁ h₂ hsec
    rw [sectionName_of_unix hu, sectionName_of_unix hu, Option.some.injEq] at hsec
    cases ph₁ <;> cases ph₂
    · refine ⟨rfl, ?_⟩
      have h' : (".init_array." ++ pad5 p₁ : String) = ".init_array." ++ pad5 p₂ := hsec
      exact pad5_inj (by omega) (by omega) (string_append_cancel_left h')
    · have h' : (".init_array." ++ pad5 p₁ : String) = ".fini_array." ++ pad5 p₂ := hsec
      exfalso
      refine string_append_ne_of_prefix_ne ?_ ?_ h' <;> decide
    · have h' : (".fini_array." ++ pad5 p₁ : String) = ".init_array." ++ pad5 p₂ := hsec
      exfalso
      refine string_append_ne_of_prefix_ne ?_ ?_ h' <;> decide
    · refine ⟨rfl, ?_⟩
      have h' : (".fini_array." ++ pad5 p₁ : String) = ".fini_array." ++ pad5 p₂ := hsec
      exact pad5_inj (by omega) (by omega) (string_append_cancel_left h')
  · intro os ph p₁ p₂ ha
    rw [sectionName_of_apple ha, sectionName_of_apple ha]
    cases ph <;> rfl

theorem c7_scheduler_total_and_injective_witness :
    (sectionName "linux" Phase.construct 12).isSome = true ∧
    (Phase.construct = Phase.construct ∧ (12 : Nat) = 12) ∧
    (Phase.destruct = Phase.destruct ∧ (7 : Nat) = 7) ∧
    sectionName "macos" Phase.destruct 3 = sectionName "macos" Phase.destruct 9 := by
  obtain ⟨ht, hwin, hunix, hap⟩ := c7_scheduler_total_and_injective
  exact ⟨ht "linux" Phase.construct 12 (by decide),
    hunix "linux" Phase.construct 12 Phase.construct 12 (by decide) (by decide) (by decide) rfl,
    hwin "windows" Phase.destruct 7 Phase.destruct 7 (by decide) (by decide) (by decide) rfl,
    hap "macos" Phase.destruct 3 9 (by decide)⟩

/-- C8: for all priorities `p₁ < p₂ ≤ 65535`, the Windows-like and Unix-like
constructor section names compare lexicographically consistent with numeric
order: the zero-filled width-5 encoding makes string order agree with numeric
order over the whole `u16` range. -/
theorem c8_encoding_lexicographically_monotone {p₁ p₂ : Nat}
    (h : p₁ < p₂) (h2 : p₂ ≤ 65535) :
    (get_initializer_attributes p₁).win_section <
      (get_initializer_attributes p₂).win_section ∧
    (get_initializer_attributes p₁).unix_section <
      (get_initializer_attributes p₂).unix_section := by
  have hlt : pad5 p₁ < pad5 p₂ := pad5_lt h (by omega)
  constructor
  · show (".CRT$XCU" ++ pad5 p₁ : String) < ".CRT$XCU" ++ pad5 p₂
    exact string_append_right_lt ".CRT$XCU" hlt
  · show (".init_array." ++ pad5 p₁ : String) < ".init_array." ++ pad5 p₂
    exact string_append_right_lt ".init_array." hlt

theorem c8_encoding_lexicographically_monotone_witness :
    (get_initializer_attributes 3).win_section <
      (get_initializer_attributes 40000).win_section ∧
    (get_initializer_attributes 3).unix_section <
      (get_initializer_attributes 40000).unix_section :=
  c8_encoding_lexicographically_monotone (by decide) (by decide)

end StaticInitializer
